import Mathlib

/-!
Verification of the MXU native-resource lifecycle layer.

Shallow embedding of the Rust sources under `src/src-tauri/src/`:
* `commands/types.rs` — `ControllerPool`, `PooledController`, `ControllerConfig::pool_key`,
  the pooled `InstanceRuntime` and its `Drop`;
* `commands/download.rs` — `sanitize_filename`, `parse_content_disposition`,
  the download-session epoch/cancel flags and the success finalization path;
* `maa_commands.rs` — the legacy `InstanceRuntime` and its `Drop`,
  `maa_destroy_instance`, `maa_connect_controller`, `maa_start_tasks` (agent branch),
  `maa_stop_task`, and `move_to_old_folder`.

Handles (raw pointers on the Rust side) are modelled as `Nat`; a null pointer is
`Option.none` at creation sites.  Mutexes are elided: every command body is executed
atomically, matching the lock discipline of the source (one lock per structure,
no lock held across a suspension point of interest to the claims).
-/

/- ============================================================================
   § ControllerPool     (src/src-tauri/src/commands/types.rs, lines 150-333)

   The pool is a `HashMap<String, PooledController>`.  All claims about it are
   per-fingerprint, and the map operations for distinct keys are independent,
   so the state we track is the entry of one fixed fingerprint key:
   `none` = the key is absent from the map. -/

/-- `PooledController` (types.rs:151-158): a controller C handle plus a
reference count and the list of owning instance ids. -/
structure PooledController where
  controller : Nat
  ref_count : Nat
  instance_ids : List String
deriving DecidableEq, Repr

/-- `PooledController::new` (types.rs:165-171): refcount 1, empty id list. -/
def PooledController.new (controller : Nat) : PooledController :=
  { controller := controller, ref_count := 1, instance_ids := [] }

/-- `PooledController::acquire` (types.rs:174-181): increment the refcount and
add the instance id to the owner list if not already present. -/
def PooledController.acquire (p : PooledController) (instance_id : String) : PooledController :=
  { p with
    ref_count := p.ref_count + 1,
    instance_ids :=
      if p.instance_ids.contains instance_id then p.instance_ids
      else p.instance_ids ++ [instance_id] }

/-- `PooledController::release` (types.rs:184-189): remove the instance id from
the owner list, decrement the refcount, and report whether the previous
refcount was exactly 1 (i.e. whether the handle should be destroyed). -/
def PooledController.release (p : PooledController) (instance_id : String) :
    PooledController × Bool :=
  ({ p with
      instance_ids := p.instance_ids.filter (fun i => i ≠ instance_id),
      ref_count := p.ref_count - 1 },
   p.ref_count == 1)

/-- `ControllerPool::get` (types.rs:223-236) restricted to one key: if the entry
exists, acquire it and hand back the shared handle; otherwise report absence. -/
def ControllerPool.get (s : Option PooledController) (instance_id : String) :
    Option PooledController × Option Nat :=
  match s with
  | some p => (some (p.acquire instance_id), some p.controller)
  | none => (none, none)

/-- `ControllerPool::insert` (types.rs:239-256) restricted to one key: build a
fresh `PooledController`, push the instance id, and store it under the key
(`HashMap::insert` overwrites any previous entry). -/
def ControllerPool.insert (_s : Option PooledController) (controller : Nat)
    (instance_id : String) : Option PooledController :=
  some { PooledController.new controller with instance_ids := [instance_id] }

/-- `ControllerPool::release` (types.rs:260-288) restricted to one key: release
the entry; if the previous refcount was 1, remove the entry and hand the raw
handle back to the caller (who performs the single native destroy). -/
def ControllerPool.release (s : Option PooledController) (instance_id : String) :
    Option PooledController × Option Nat :=
  match s with
  | none => (none, none)
  | some p =>
    let r := p.release instance_id
    if r.2 then (none, some p.controller) else (some r.1, none)

/-- One get/insert/release call on the fixed fingerprint key. -/
inductive PoolOp where
  | get (instance_id : String)
  | insert (controller : Nat) (instance_id : String)
  | release (instance_id : String)
deriving DecidableEq, Repr

/-- State transition of the key's pool entry under one call. -/
def poolStep (s : Option PooledController) : PoolOp → Option PooledController
  | .get inst => (ControllerPool.get s inst).1
  | .insert h inst => ControllerPool.insert s h inst
  | .release inst => (ControllerPool.release s inst).1

/-- The handle handed back for native destruction by this call, if any
(only `release` ever hands one back). -/
def releasedHandle (s : Option PooledController) : PoolOp → Option Nat
  | .release inst => (ControllerPool.release s inst).2
  | _ => none

/-- The key's current refcount (0 when the entry is absent). -/
def rcOf : Option PooledController → Nat
  | none => 0
  | some p => p.ref_count

/-- Run a sequence of calls from a starting entry state. -/
def runPool (s : Option PooledController) : List PoolOp → Option PooledController
  | [] => s
  | op :: ops => runPool (poolStep s op) ops

/-- Number of handles handed back for native destruction along a run. -/
def destroyCount (s : Option PooledController) : List PoolOp → Nat
  | [] => 0
  | op :: ops =>
    (if (releasedHandle s op).isSome then 1 else 0) + destroyCount (poolStep s op) ops

/-- Number of steps at which the key's refcount crosses from one to zero. -/
def zeroCrossCount (s : Option PooledController) : List PoolOp → Nat
  | [] => 0
  | op :: ops =>
    (if rcOf s = 1 ∧ rcOf (poolStep s op) = 0 then 1 else 0) + zeroCrossCount (poolStep s op) ops

/-- Well-formedness of a pool entry: a present entry has refcount at least 1. -/
def poolWF : Option PooledController → Bool
  | none => true
  | some p => 1 ≤ p.ref_count

lemma releasedHandle_isSome_iff (s : Option PooledController) (op : PoolOp) :
    (releasedHandle s op).isSome = true ↔ (rcOf s = 1 ∧ rcOf (poolStep s op) = 0) := by
  cases op with
  | get inst =>
    cases s with
    | none => simp [releasedHandle, poolStep, ControllerPool.get, rcOf]
    | some p =>
      simp [releasedHandle, poolStep, ControllerPool.get, rcOf, PooledController.acquire]
  | insert h inst =>
    cases s with
    | none => simp [releasedHandle, poolStep, ControllerPool.insert, rcOf, PooledController.new]
    | some p => simp [releasedHandle, poolStep, ControllerPool.insert, rcOf, PooledController.new]
  | release inst =>
    cases s with
    | none => simp [releasedHandle, poolStep, ControllerPool.release, rcOf]
    | some p =>
      by_cases h1 : p.ref_count = 1
      · simp [releasedHandle, poolStep, ControllerPool.release, PooledController.release, rcOf, h1]
      · simp [releasedHandle, poolStep, ControllerPool.release, PooledController.release,
          rcOf, h1]

lemma destroyCount_eq_zeroCrossCount (ops : List PoolOp) :
    ∀ s, destroyCount s ops = zeroCrossCount s ops := by
  induction ops with
  | nil => intro s; rfl
  | cons op ops ih =>
    intro s
    have hstep : (if (releasedHandle s op).isSome then 1 else 0) =
        (if rcOf s = 1 ∧ rcOf (poolStep s op) = 0 then 1 else 0) := by
      by_cases h : (releasedHandle s op).isSome = true
      · rw [if_pos h, if_pos ((releasedHandle_isSome_iff s op).mp h)]
      · rw [if_neg h, if_neg (fun hc => h ((releasedHandle_isSome_iff s op).mpr hc))]
    simp only [destroyCount, zeroCrossCount, hstep, ih]

lemma poolWF_step (s : Option PooledController) (op : PoolOp) (h : poolWF s = true) :
    poolWF (poolStep s op) = true := by
  cases op with
  | get inst =>
    cases s with
    | none => simp [poolStep, ControllerPool.get, poolWF]
    | some p => simp [poolStep, ControllerPool.get, poolWF, PooledController.acquire]
  | insert hc inst =>
    cases s with
    | none => simp [poolStep, ControllerPool.insert, poolWF, PooledController.new]
    | some p => simp [poolStep, ControllerPool.insert, poolWF, PooledController.new]
  | release inst =>
    cases s with
    | none => simp [poolStep, ControllerPool.release, poolWF]
    | some p =>
      by_cases h1 : p.ref_count = 1
      · simp [poolStep, ControllerPool.release, PooledController.release, poolWF, h1]
      · have hge : 1 ≤ p.ref_count := by simpa [poolWF] using h
        have h2 : 2 ≤ p.ref_count := by omega
        simp only [poolStep, ControllerPool.release, PooledController.release, poolWF]
        simp only [beq_iff_eq, h1, if_false, poolWF]
        simp only [decide_eq_true_eq]
        omega

lemma poolWF_run (ops : List PoolOp) : ∀ s, poolWF s = true → poolWF (runPool s ops) = true := by
  induction ops with
  | nil => intro s h; simpa [runPool] using h
  | cons op ops ih => intro s h; exact ih _ (poolWF_step s op h)

/-- C1.  For every sequence of `ControllerPool` get/insert/release calls on one
fingerprint key, the number of controller handles handed back by `release` for
native destruction equals exactly the number of times that key's refcount
crosses from one to zero; the pool state reached from the empty pool is
well-formed; and `get` never returns a handle while the key's refcount is zero. -/
theorem C1_pool_destroy_iff_zero_crossing (ops : List PoolOp) :
    destroyCount none ops = zeroCrossCount none ops ∧
    poolWF (runPool none ops) = true ∧
    ∀ inst : String,
      ((ControllerPool.get (runPool none ops) inst).2).isSome = true →
        1 ≤ rcOf (runPool none ops) := by
  refine ⟨destroyCount_eq_zeroCrossCount ops none, poolWF_run ops none rfl, ?_⟩
  intro inst hget
  have hwf : poolWF (runPool none ops) = true := poolWF_run ops none rfl
  cases hrun : runPool none ops with
  | none => rw [hrun] at hget; simp [ControllerPool.get] at hget
  | some p =>
    rw [hrun] at hwf
    simp only [poolWF, decide_eq_true_eq] at hwf
    simpa [rcOf] using hwf

/-- Witness for C1: a concrete insert/get/release run.  Two owners, one
zero-crossing, one destroyed handle, and a successful `get` at refcount 1. -/
theorem C1_pool_destroy_iff_zero_crossing_witness :
    ((ControllerPool.get
        (runPool none [PoolOp.insert 5 "a", PoolOp.get "b", PoolOp.release "b"]) "a").2).isSome
        = true ∧
    1 ≤ rcOf (runPool none [PoolOp.insert 5 "a", PoolOp.get "b", PoolOp.release "b"]) ∧
    destroyCount none [PoolOp.insert 5 "a", PoolOp.get "b", PoolOp.release "b",
      PoolOp.release "a"] = 1 := by
  refine ⟨by decide, ?_, by decide⟩
  exact (C1_pool_destroy_iff_zero_crossing
    [PoolOp.insert 5 "a", PoolOp.get "b", PoolOp.release "b"]).2.2 "a" (by decide)

/- ============================================================================
   § ControllerConfig::pool_key     (src/src-tauri/src/commands/types.rs, 62-135) -/

/-- `ControllerConfig` (types.rs:62-88).  The `u64` fields are modelled as `Nat`
(the Rust side renders them in decimal, which is value-faithful). -/
inductive ControllerConfig where
  | Adb (adb_path address screencap_methods input_methods config : String)
  | Win32 (handle screencap_method mouse_method keyboard_method : Nat)
  | Gamepad (handle : Nat) (gamepad_type : Option String) (screencap_method : Option Nat)
  | PlayCover (address : String)
deriving DecidableEq, Repr

/-- Little-endian decimal digit characters of `n`; `fuel` bounds the recursion
(`fuel = n` always suffices). -/
def natDecChars (fuel n : Nat) : List Char :=
  match fuel with
  | 0 => []
  | fuel + 1 => if n = 0 then [] else Nat.digitChar (n % 10) :: natDecChars fuel (n / 10)

/-- Decimal rendering of an unsigned integer: the semantics of Rust
`format!` on a `u64` argument. -/
def natRepr (n : Nat) : String :=
  if n = 0 then "0" else String.mk (natDecChars n n).reverse

lemma natDecChars_eq_digits (fuel : Nat) :
    ∀ n, n ≤ fuel → natDecChars fuel n = (Nat.digits 10 n).map Nat.digitChar := by
  induction fuel with
  | zero =>
    intro n hn
    have h0 : n = 0 := Nat.le_zero.mp hn
    simp [natDecChars, h0]
  | succ fuel ih =>
    intro n hn
    by_cases h0 : n = 0
    · simp [natDecChars, h0]
    · have hlt : n / 10 < n := Nat.div_lt_self (Nat.pos_of_ne_zero h0) (by norm_num)
      have hle : n / 10 ≤ fuel := by omega
      rw [natDecChars]
      simp only [h0, if_false]
      rw [Nat.digits_def' (by norm_num : (1:ℕ) < 10) (Nat.pos_of_ne_zero h0), ih (n / 10) hle]
      simp

lemma digitChar_inj_of_lt : ∀ a < 10, ∀ b < 10, Nat.digitChar a = Nat.digitChar b → a = b := by
  decide

lemma map_digitChar_inj :
    ∀ (l₁ l₂ : List Nat), (∀ d ∈ l₁, d < 10) → (∀ d ∈ l₂, d < 10) →
      l₁.map Nat.digitChar = l₂.map Nat.digitChar → l₁ = l₂ := by
  intro l₁
  induction l₁ with
  | nil => intro l₂ _ _ h; cases l₂ <;> simp_all
  | cons a l₁ ih =>
    intro l₂ h₁ h₂ h
    cases l₂ with
    | nil => simp at h
    | cons b l₂ =>
      simp only [List.map_cons, List.cons.injEq] at h
      have ha : a = b :=
        digitChar_inj_of_lt a (h₁ a (by simp)) b (h₂ b (by simp)) h.1
      have hl : l₁ = l₂ :=
        ih l₂ (fun d hd => h₁ d (by simp [hd])) (fun d hd => h₂ d (by simp [hd])) h.2
      simp [ha, hl]

lemma digits_ten_lt (n : Nat) : ∀ d ∈ Nat.digits 10 n, d < 10 := fun _ hd =>
  Nat.digits_lt_base (by norm_num) hd

lemma natRepr_ne_zero_repr {n : Nat} (hn : n ≠ 0) : natRepr n ≠ "0" := by
  intro h
  have hd := congrArg String.data h
  rw [natRepr, if_neg hn] at hd
  rw [natDecChars_eq_digits n n le_rfl] at hd
  have hrev : ((Nat.digits 10 n).map Nat.digitChar).reverse = ['0'] := hd
  have hmap : (Nat.digits 10 n).map Nat.digitChar = ['0'] := by
    have := congrArg List.reverse hrev
    simpa using this
  have hdig : Nat.digits 10 n = [0] := by
    cases hds : Nat.digits 10 n with
    | nil => rw [hds] at hmap; simp at hmap
    | cons d ds =>
      rw [hds] at hmap
      cases ds with
      | nil =>
        simp only [List.map_cons, List.map_nil, List.cons.injEq, and_true] at hmap
        have hdlt : d < 10 := by
          have := digits_ten_lt n; rw [hds] at this; exact this d (by simp)
        have : d = 0 := digitChar_inj_of_lt d hdlt 0 (by norm_num) (by simpa using hmap)
        simp [this]
      | cons e es => simp at hmap
  have hofd := Nat.ofDigits_digits 10 n
  rw [hdig] at hofd
  simp [Nat.ofDigits] at hofd
  exact hn hofd.symm

lemma natRepr_injective {m n : Nat} (h : natRepr m = natRepr n) : m = n := by
  by_cases hm : m = 0
  · by_cases hn : n = 0
    · rw [hm, hn]
    · exact absurd h.symm (by rw [hm, natRepr]; simpa using natRepr_ne_zero_repr hn)
  · by_cases hn : n = 0
    · exact absurd h (by rw [hn, natRepr]; simpa using natRepr_ne_zero_repr hm)
    · have hd := congrArg String.data h
      rw [natRepr, if_neg hm, natRepr, if_neg hn] at hd
      rw [natDecChars_eq_digits m m le_rfl, natDecChars_eq_digits n n le_rfl] at hd
      have hrev : ((Nat.digits 10 m).map Nat.digitChar).reverse
          = ((Nat.digits 10 n).map Nat.digitChar).reverse := hd
      have hmap := congrArg List.reverse hrev
      simp only [List.reverse_reverse] at hmap
      exact Nat.digits_inj_iff.mp
        (map_digitChar_inj _ _ (digits_ten_lt m) (digits_ten_lt n) hmap)

/-- `ControllerConfig::pool_key` (types.rs:93-134): colon-joined rendering of the
variant tag and its fields; `Gamepad` defaults `gamepad_type` to `"Xbox360"` and
`screencap_method` to `0`. -/
def pool_key : ControllerConfig → String
  | .Adb adb_path address screencap_methods input_methods config =>
      "adb:" ++ adb_path ++ ":" ++ address ++ ":" ++ screencap_methods ++ ":"
        ++ input_methods ++ ":" ++ config
  | .Win32 handle screencap_method mouse_method keyboard_method =>
      "win32:" ++ natRepr handle ++ ":" ++ natRepr screencap_method ++ ":"
        ++ natRepr mouse_method ++ ":" ++ natRepr keyboard_method
  | .Gamepad handle gamepad_type screencap_method =>
      "gamepad:" ++ natRepr handle ++ ":" ++ gamepad_type.getD "Xbox360" ++ ":"
        ++ natRepr (screencap_method.getD 0)
  | .PlayCover address => "playcover:" ++ address

lemma pool_key_field_inj {x y : String} {pre suf : List Char}
    (h : pre ++ (x.data ++ suf) = pre ++ (y.data ++ suf)) : x = y :=
  String.ext ((List.append_left_inj suf).mp ((List.append_right_inj pre).mp h))

/-- C2 counterexample.  Two `Gamepad` configurations that differ in exactly one
semantic field (`gamepad_type`: `None` versus `Some "Xbox360"`) receive the same
fingerprint string, so `pool_key` is not injective over the semantic field
tuples as the claim states. -/
theorem C2_pool_key_injective_counterexample :
    pool_key (ControllerConfig.Gamepad 0 none none)
      = pool_key (ControllerConfig.Gamepad 0 (some "Xbox360") none) ∧
    ControllerConfig.Gamepad 0 none none ≠ ControllerConfig.Gamepad 0 (some "Xbox360") none := by
  constructor
  · rfl
  · decide

/-- C2 (amended).  `pool_key` is a pure function of the configuration's fields
(equal configurations give equal fingerprints), and a single differing field
gives a different fingerprint — except that in the `Gamepad` variant the
optional fields are compared after defaulting (`gamepad_type` defaults to
`"Xbox360"`, `screencap_method` to `0`), so `None` collides with an explicit
default value. -/
theorem C2_pool_key_single_field_injective :
    (∀ c₁ c₂ : ControllerConfig, c₁ = c₂ → pool_key c₁ = pool_key c₂) ∧
    (∀ p₁ p₂ a s i c, pool_key (.Adb p₁ a s i c) = pool_key (.Adb p₂ a s i c) → p₁ = p₂) ∧
    (∀ p a₁ a₂ s i c, pool_key (.Adb p a₁ s i c) = pool_key (.Adb p a₂ s i c) → a₁ = a₂) ∧
    (∀ p a s₁ s₂ i c, pool_key (.Adb p a s₁ i c) = pool_key (.Adb p a s₂ i c) → s₁ = s₂) ∧
    (∀ p a s i₁ i₂ c, pool_key (.Adb p a s i₁ c) = pool_key (.Adb p a s i₂ c) → i₁ = i₂) ∧
    (∀ p a s i c₁ c₂, pool_key (.Adb p a s i c₁) = pool_key (.Adb p a s i c₂) → c₁ = c₂) ∧
    (∀ h₁ h₂ s m k, pool_key (.Win32 h₁ s m k) = pool_key (.Win32 h₂ s m k) → h₁ = h₂) ∧
    (∀ h s₁ s₂ m k, pool_key (.Win32 h s₁ m k) = pool_key (.Win32 h s₂ m k) → s₁ = s₂) ∧
    (∀ h s m₁ m₂ k, pool_key (.Win32 h s m₁ k) = pool_key (.Win32 h s m₂ k) → m₁ = m₂) ∧
    (∀ h s m k₁ k₂, pool_key (.Win32 h s m k₁) = pool_key (.Win32 h s m k₂) → k₁ = k₂) ∧
    (∀ h₁ h₂ g s, pool_key (.Gamepad h₁ g s) = pool_key (.Gamepad h₂ g s) → h₁ = h₂) ∧
    (∀ h g₁ g₂ s, pool_key (.Gamepad h g₁ s) = pool_key (.Gamepad h g₂ s) →
      g₁.getD "Xbox360" = g₂.getD "Xbox360") ∧
    (∀ h g s₁ s₂, pool_key (.Gamepad h g s₁) = pool_key (.Gamepad h g s₂) →
      s₁.getD 0 = s₂.getD 0) ∧
    (∀ a₁ a₂, pool_key (.PlayCover a₁) = pool_key (.PlayCover a₂) → a₁ = a₂) := by
  refine ⟨fun c₁ c₂ h => by rw [h], ?_, ?_, ?_, ?_, ?_, ?_, ?_, ?_, ?_, ?_, ?_, ?_, ?_⟩
  all_goals intros
  all_goals rename_i h
  all_goals first
  | exact String.ext (by
      simpa only [pool_key, String.data_append, List.append_assoc, List.append_right_inj,
        List.append_left_inj, List.append_nil] using congrArg String.data h)
  | exact natRepr_injective (String.ext (by
      simpa only [pool_key, String.data_append, List.append_assoc, List.append_right_inj,
        List.append_left_inj, List.append_nil] using congrArg String.data h))

/- ============================================================================
   § Filename sanitizer and Content-Disposition parsing
     (src/src-tauri/src/commands/download.rs, lines 305-381)

   Rust strings are modelled as Lean strings; `find`/slicing offsets are char
   offsets (they coincide with Rust byte offsets on the ASCII header text these
   functions manipulate).  `urlencoding::decode` works on the UTF-8 bytes, so
   byte-level percent decoding and UTF-8 encode/decode are modelled exactly. -/

/-- The last segment of `rsplit` by `/` or `\` — the characters after the last
path separator (download.rs:312-315). -/
def lastSegmentAfterSep (filename : List Char) : List Char :=
  filename.foldl (fun acc c => if c = '/' ∨ c = '\\' then [] else acc ++ [c]) []

/-- `sanitize_filename` (download.rs:310-328): keep only the part after the last
path separator; reject empty, `.`, `..`, names starting with `..`, and names
without an extension dot. -/
def sanitize_filename (filename : String) : Option String :=
  let name := String.mk (lastSegmentAfterSep filename.data)
  if name = "" ∨ name = "." ∨ name = ".." ∨ ['.', '.'].isPrefixOf name.data then none
  else if !(name.data.contains '.') then none
  else some name

/-- First index at which `pat` occurs in the list (Rust `str::find`). -/
def findSubstr (pat : List Char) : List Char → Option Nat
  | [] => if pat.isPrefixOf ([] : List Char) then some 0 else none
  | c :: t => if pat.isPrefixOf (c :: t) then some 0 else (findSubstr pat t).map (· + 1)

/-- ASCII whitespace test used to model Rust `str::trim` on these headers. -/
def isWS (c : Char) : Bool :=
  c = ' ' ∨ c = Char.ofNat 9 ∨ c = Char.ofNat 10 ∨ c = Char.ofNat 13

/-- Rust `str::trim`. -/
def trimChars (l : List Char) : List Char :=
  ((l.dropWhile isWS).reverse.dropWhile isWS).reverse

/-- Rust `str::trim_matches c`: strip every leading and trailing `c`. -/
def trimMatches (c : Char) (l : List Char) : List Char :=
  ((l.dropWhile (· = c)).reverse.dropWhile (· = c)).reverse

/-- UTF-8 encoding of one scalar value. -/
def utf8EncodeChar (c : Char) : List Nat :=
  let n := c.toNat
  if n < 128 then [n]
  else if n < 2048 then [192 + n / 64, 128 + n % 64]
  else if n < 65536 then [224 + n / 4096, 128 + (n / 64) % 64, 128 + n % 64]
  else [240 + n / 262144, 128 + (n / 4096) % 64, 128 + (n / 64) % 64, 128 + n % 64]

/-- UTF-8 encoding of a string (the bytes Rust sees in a `&str`). -/
def utf8Encode (s : String) : List Nat :=
  (s.data.map utf8EncodeChar).flatten

/-- UTF-8 continuation byte test. -/
def utf8Cont (b : Nat) : Bool := 128 ≤ b ∧ b ≤ 191

/-- Strict UTF-8 decoding (Rust `String::from_utf8` semantics: overlong forms,
surrogates and out-of-range values are rejected). -/
def utf8Decode : List Nat → Option (List Char)
  | [] => some []
  | b :: rest =>
    if b < 128 then (utf8Decode rest).map (fun cs => Char.ofNat b :: cs)
    else if 194 ≤ b ∧ b ≤ 223 then
      match rest with
      | b2 :: rest2 =>
        if utf8Cont b2 then
          (utf8Decode rest2).map (fun cs => Char.ofNat ((b - 192) * 64 + (b2 - 128)) :: cs)
        else none
      | [] => none
    else if 224 ≤ b ∧ b ≤ 239 then
      match rest with
      | b2 :: b3 :: rest3 =>
        let okB2 : Bool :=
          if b = 224 then 160 ≤ b2 ∧ b2 ≤ 191
          else if b = 237 then 128 ≤ b2 ∧ b2 ≤ 159
          else utf8Cont b2
        if okB2 ∧ utf8Cont b3 then
          (utf8Decode rest3).map
            (fun cs => Char.ofNat ((b - 224) * 4096 + (b2 - 128) * 64 + (b3 - 128)) :: cs)
        else none
      | _ => none
    else if 240 ≤ b ∧ b ≤ 244 then
      match rest with
      | b2 :: b3 :: b4 :: rest4 =>
        let okB2 : Bool :=
          if b = 240 then 144 ≤ b2 ∧ b2 ≤ 191
          else if b = 244 then 128 ≤ b2 ∧ b2 ≤ 143
          else utf8Cont b2
        if okB2 ∧ utf8Cont b3 ∧ utf8Cont b4 then
          (utf8Decode rest4).map
            (fun cs => Char.ofNat
              ((b - 240) * 262144 + (b2 - 128) * 4096 + (b3 - 128) * 64 + (b4 - 128)) :: cs)
        else none
      | _ => none
    else none

/-- Value of an ASCII hex-digit byte, if it is one. -/
def hexVal (b : Nat) : Option Nat :=
  if 48 ≤ b ∧ b ≤ 57 then some (b - 48)
  else if 65 ≤ b ∧ b ≤ 70 then some (b - 55)
  else if 97 ≤ b ∧ b ≤ 102 then some (b - 87)
  else none

/-- Percent decoding on bytes (`urlencoding` crate): a `%` followed by two hex
digits becomes one byte; any other `%` is kept literally. -/
def pctDecodeBytes : List Nat → List Nat
  | [] => []
  | 37 :: h1 :: h2 :: rest =>
    match hexVal h1, hexVal h2 with
    | some v1, some v2 => (v1 * 16 + v2) :: pctDecodeBytes rest
    | _, _ => 37 :: pctDecodeBytes (h1 :: h2 :: rest)
  | b :: rest => b :: pctDecodeBytes rest

/-- `urlencoding::decode`: percent-decode the UTF-8 bytes, then re-validate as
UTF-8 (an invalid result is an error, here `none`). -/
def urlencoding_decode (s : String) : Option String :=
  (utf8Decode (pctDecodeBytes (utf8Encode s))).map String.mk

/-- The apostrophe character (ASCII 39). -/
def apos : Char := Char.ofNat 39

/-- The double-quote character (ASCII 34). -/
def quoteChar : Char := Char.ofNat 34

/-- The RFC-5987 branch of `parse_content_disposition` (download.rs:341-353):
find `filename*=` case-insensitively, skip to after the second `'`,
take up to `;`, trim, percent-decode, strip quotes; empty or undecodable
results fall through. -/
def filenameStarBranch (header headerLower : List Char) : Option String :=
  match findSubstr "filename*=".data headerLower with
  | none => none
  | some start =>
    let rest := header.drop (start + 10)
    match findSubstr [apos, apos] rest with
    | none => none
    | some quotePos =>
      let encoded := trimChars ((rest.drop (quotePos + 2)).takeWhile (fun c => ¬(c = ';')))
      match urlencoding_decode (String.mk encoded) with
      | none => none
      | some decoded =>
        let filename := trimMatches quoteChar decoded.data
        if filename = [] then none else some (String.mk filename)

/-- The plain `filename=` loop of `parse_content_disposition`
(download.rs:357-378): search for `filename=` not preceded by `*`; extract up
to `;`, trim, strip quotes; an empty result ends the search.  `fuel` bounds the
loop (the header length always suffices, since the start offset advances by at
least 9 per iteration). -/
def filenamePlainLoop (header headerLower : List Char) : Nat → Nat → Option String
  | 0, _ => none
  | fuel + 1, searchStart =>
    match findSubstr "filename=".data (headerLower.drop searchStart) with
    | none => none
    | some pos =>
      let absolutePos := searchStart + pos
      if 0 < absolutePos ∧ header.get? (absolutePos - 1) = some '*' then
        filenamePlainLoop header headerLower fuel (absolutePos + 9)
      else
        let filename :=
          trimMatches quoteChar
            (trimChars ((header.drop (absolutePos + 9)).takeWhile (fun c => ¬(c = ';'))))
        if filename = [] then none else some (String.mk filename)

/-- `parse_content_disposition` (download.rs:337-381): the `filename*=` branch
first, falling back to the plain `filename=` loop. -/
def parse_content_disposition (header : String) : Option String :=
  let headerLower := header.data.map Char.toLower
  match filenameStarBranch header.data headerLower with
  | some f => some f
  | none => filenamePlainLoop header.data headerLower (header.data.length + 1) 0

/-- The test header of C3: `attachment; filename*=UTF-8<q><q>%E4%B8%AD%E6%96%87.exe`
with `<q>` the apostrophe. -/
def cdHeader : String :=
  "attachment; filename*=UTF-8" ++ String.mk [apos, apos] ++ "%E4%B8%AD%E6%96%87.exe"

/-- The same header with mixed upper/lower case on the parameter name. -/
def cdHeaderUpper : String :=
  "Attachment; FILENAME*=utf-8" ++ String.mk [apos, apos] ++ "%E4%B8%AD%E6%96%87.exe"

/-- C3 counterexample.  The sanitizer does not reject `"../../evil.exe"`: it
strips the directory components and yields the filename `"evil.exe"`. -/
theorem C3_sanitize_filename_counterexample :
    sanitize_filename "../../evil.exe" = some "evil.exe" ∧
    sanitize_filename "../../evil.exe" ≠ none := by
  constructor
  · decide
  · decide

/-- C3 (amended).  The sanitizer strips `"../../evil.exe"` to `some "evil.exe"`
(directory components removed, not rejected), accepts `"report.pdf"` unchanged,
rejects `"noext"`, and a `Content-Disposition` `filename*=UTF-8` parameter is
matched case-insensitively and percent-decoded to the Unicode name. -/
theorem C3_sanitizer_and_content_disposition :
    sanitize_filename "../../evil.exe" = some "evil.exe" ∧
    sanitize_filename "report.pdf" = some "report.pdf" ∧
    sanitize_filename "noext" = none ∧
    parse_content_disposition cdHeader = some "中文.exe" ∧
    parse_content_disposition cdHeaderUpper = some "中文.exe" := by
  refine ⟨by decide, by decide, by decide, by decide, by decide⟩

/-- Witness for C2 (amended): the Adb-address injectivity instance at a
concrete configuration. -/
theorem C2_pool_key_single_field_injective_witness :
    pool_key (ControllerConfig.Adb "adb" "127.0.0.1:5555" "18446744073709551614" "1" "cfg")
        = pool_key (ControllerConfig.Adb "adb" "127.0.0.1:5555" "18446744073709551614" "1" "cfg")
      ∧ ("127.0.0.1:5555" : String) = "127.0.0.1:5555" :=
  ⟨rfl, C2_pool_key_single_field_injective.2.2.1 "adb" "127.0.0.1:5555" "127.0.0.1:5555"
    "18446744073709551614" "1" "cfg" rfl⟩

/- ============================================================================
   § Download session epoch and cancellation
     (src/src-tauri/src/commands/download.rs, lines 14-17, 40-45, 133-143,
      186-196, 243-262; identically in maa_commands.rs 1983-2183)

   The two process-wide atomics are `CURRENT_DOWNLOAD_SESSION` (the epoch) and
   `DOWNLOAD_CANCELLED` (the cancel flag). -/

/-- The pair of global download atomics. -/
structure DlGlobals where
  current_download_session : Nat
  download_cancelled : Bool
deriving DecidableEq, Repr

/-- Start of `download_file` (download.rs:41-45): `fetch_add(1)` on the epoch
yields the new session id (old value + 1), then the cancel flag is reset. -/
def downloadStart (g : DlGlobals) : DlGlobals × Nat :=
  let session_id := g.current_download_session + 1
  ({ current_download_session := session_id, download_cancelled := false }, session_id)

/-- `cancel_download` (download.rs:243-262): set the shared cancel flag. -/
def cancelDownload (g : DlGlobals) : DlGlobals :=
  { g with download_cancelled := true }

/-- The per-chunk abort check of the download loop (download.rs:135-137 and the
pre-finalization recheck 186-188): abort while the cancel flag is set or the
global epoch no longer equals this session's id. -/
def downloadAborts (g : DlGlobals) (session_id : Nat) : Bool :=
  g.download_cancelled || g.current_download_session != session_id

/-- External events touching the download globals. -/
inductive DlEvent where
  | start
  | cancel
deriving DecidableEq, Repr

/-- Effect of one event on the globals. -/
def dlStep (g : DlGlobals) : DlEvent → DlGlobals
  | .start => (downloadStart g).1
  | .cancel => cancelDownload g

/-- Run a sequence of events. -/
def dlRun (g : DlGlobals) : List DlEvent → DlGlobals
  | [] => g
  | e :: es => dlRun (dlStep g e) es

lemma dlRun_epoch_mono (es : List DlEvent) :
    ∀ g : DlGlobals, g.current_download_session ≤ (dlRun g es).current_download_session := by
  induction es with
  | nil => intro g; exact le_refl _
  | cons e es ih =>
    intro g
    refine le_trans ?_ (ih (dlStep g e))
    cases e <;> simp [dlStep, downloadStart, cancelDownload]

/-- C4.  Cancellation is epoch-scoped: a freshly started session is never
pre-cancelled (whatever stale cancel/epoch state preceded it); starting a
second session invalidates the first session's abort check and makes it fire;
a cancel call makes the abort check of the current session fire; and in
particular, for any interleaving of further events after a session starts, the
session's abort check fires whenever the epoch has moved past it. -/
theorem C4_download_cancellation_epoch_scoped (g : DlGlobals) :
    (downloadAborts (downloadStart g).1 (downloadStart g).2 = false) ∧
    (∀ sid : Nat, downloadAborts (cancelDownload g) sid = true) ∧
    (let s₁ := downloadStart g
     let s₂ := downloadStart s₁.1
     s₂.2 ≠ s₁.2 ∧
     downloadAborts s₂.1 s₁.2 = true ∧
     downloadAborts s₂.1 s₂.2 = false ∧
     downloadAborts (cancelDownload s₂.1) s₂.2 = true) ∧
    (let s₂ := downloadStart (cancelDownload (downloadStart g).1)
     downloadAborts s₂.1 s₂.2 = false) ∧
    (∀ es : List DlEvent,
      (downloadStart g).2 < (dlRun (downloadStart g).1 es).current_download_session →
        downloadAborts (dlRun (downloadStart g).1 es) (downloadStart g).2 = true) := by
  refine ⟨?_, ?_, ?_, ?_, ?_⟩
  · simp [downloadAborts, downloadStart]
  · intro sid; simp [downloadAborts, cancelDownload]
  · refine ⟨by simp [downloadStart], ?_, ?_, ?_⟩
    · simp [downloadAborts, downloadStart]
    · simp [downloadAborts, downloadStart]
    · simp [downloadAborts, downloadStart, cancelDownload]
  · simp [downloadAborts, downloadStart, cancelDownload]
  · intro es hlt
    have hne : (dlRun (downloadStart g).1 es).current_download_session ≠ (downloadStart g).2 :=
      Nat.ne_of_gt hlt
    simp only [downloadAborts, Bool.or_eq_true, bne_iff_ne]
    exact Or.inr hne

/-- Witness for C4: the event-sequence conjunct at a concrete state and a
one-event continuation. -/
theorem C4_download_cancellation_epoch_scoped_witness :
    ((downloadStart ⟨0, false⟩).2
        < (dlRun (downloadStart ⟨0, false⟩).1 [DlEvent.start]).current_download_session) ∧
    downloadAborts (dlRun (downloadStart ⟨0, false⟩).1 [DlEvent.start])
      (downloadStart ⟨0, false⟩).2 = true :=
  ⟨by decide, (C4_download_cancellation_epoch_scoped ⟨0, false⟩).2.2.2.2 [DlEvent.start]
    (by decide)⟩

/- ============================================================================
   § Download success path and backup naming
     (src/src-tauri/src/commands/download.rs, lines 114-238;
      src/src-tauri/src/maa_commands.rs, lines 1791-1826 `move_to_old_folder`) -/

/-- Zero-padded rendering of the Rust format `{:03}`. -/
def pad3 (n : Nat) : String :=
  if n < 10 then "00" ++ natRepr n else if n < 100 then "0" ++ natRepr n else natRepr n

/-- The backup name `<base>.bakNNN` (maa_commands.rs:1811). -/
def bakName (base : String) (i : Nat) : String := base ++ ".bak" ++ pad3 i

/-- The index chosen by the `for i in 1..=999` loop of `move_to_old_folder`
(maa_commands.rs:1810-1816): starting at `i` with `fuel` iterations left,
stop at the first index whose backup name is free, or at the last index
examined when none is free. -/
def chooseBakIndex (occupied : Nat → Bool) (i : Nat) : Nat → Nat
  | 0 => i
  | fuel + 1 => if occupied i ∧ fuel ≠ 0 then chooseBakIndex occupied (i + 1) fuel else i

/-- The destination file name selected by `move_to_old_folder`
(maa_commands.rs:1805-1818) inside the `cache/old` folder: the plain name if
free, otherwise `.bak001`…`.bak999`, overwriting `.bak999` when all are taken.
`occupied` is the existence test in the `cache/old` folder. -/
def move_to_old_folder_destName (occupied : String → Bool) (file_name : String) : String :=
  if occupied file_name then
    bakName file_name (chooseBakIndex (fun i => occupied (bakName file_name i)) 1 999)
  else file_name

/-- Rust `Path::file_name` for the plain paths at play: the component after the
last separator. -/
def fileNameOf (p : String) : String := String.mk (lastSegmentAfterSep p.data)

/-- Filesystem / event effects of the download success path. -/
inductive DlEff where
  | createFile (path : String)
  | writeFile (path : String) (bytes : List Nat)
  | syncFile (path : String)
  | emitProgress (session_id downloaded_size total_size speed progress : Nat)
  | moveToOld (src : String) (destName : String)
  | renameFile (src dst : String)
deriving DecidableEq, Repr

/-- The streaming loop of `download_file` (download.rs:133-183), success case:
chunks are accumulated into the 256 KiB buffer, which is flushed to the temp
file whenever it reaches 256 KiB.  Returns (bytes written so far, remaining
buffer, write effects). -/
def downloadLoopAux (temp_path : String) (written buffer : List Nat) :
    List (List Nat) → List Nat × List Nat × List DlEff
  | [] => (written, buffer, [])
  | chunk :: rest =>
    let buf := buffer ++ chunk
    if 256 * 1024 ≤ buf.length then
      let r := downloadLoopAux temp_path (written ++ buf) [] rest
      (r.1, r.2.1, DlEff.writeFile temp_path buf :: r.2.2)
    else
      downloadLoopAux temp_path written buf rest

/-- The effect trace of a successful `download_file` run
(download.rs:114-238): create the staging file `<target>.downloading`, stream
the body into it, flush the remaining buffer, sync, emit the final 100% event,
move a pre-existing destination file into the backup folder, and rename the
staging file onto the destination. -/
def download_file_success (actual_save_path : String) (session_id total : Nat)
    (chunks : List (List Nat)) (destExists : Bool) (occupied : String → Bool) : List DlEff :=
  let temp_path := actual_save_path ++ ".downloading"
  let r := downloadLoopAux temp_path [] [] chunks
  let downloaded := chunks.flatten.length
  (((([DlEff.createFile temp_path] ++ r.2.2)
    ++ (if r.2.1 = [] then [] else [DlEff.writeFile temp_path r.2.1]))
    ++ [DlEff.syncFile temp_path,
        DlEff.emitProgress session_id downloaded (if 0 < total then total else downloaded) 0 100])
    ++ (if destExists then
          [DlEff.moveToOld actual_save_path
            (move_to_old_folder_destName occupied (fileNameOf actual_save_path))]
        else []))
    ++ [DlEff.renameFile temp_path actual_save_path]

/-- Does this effect write file content only to `temp`? (Non-write effects
pass trivially.) -/
def writeTargets (temp : String) : DlEff → Bool
  | .writeFile p _ => p = temp
  | .createFile p => p = temp
  | _ => true

/-- Concatenation of all bytes written to `temp` by a list of effects. -/
def writesTo (temp : String) (effs : List DlEff) : List Nat :=
  (effs.filterMap fun e =>
    match e with
    | .writeFile p b => if p = temp then some b else none
    | _ => none).flatten

lemma writesTo_cons_write (temp : String) (b : List Nat) (effs : List DlEff) :
    writesTo temp (DlEff.writeFile temp b :: effs) = b ++ writesTo temp effs := by
  simp [writesTo]

lemma downloadLoopAux_spec (temp : String) (chunks : List (List Nat)) :
    ∀ written buffer : List Nat,
      (∀ e ∈ (downloadLoopAux temp written buffer chunks).2.2, ∃ b, e = DlEff.writeFile temp b) ∧
      (downloadLoopAux temp written buffer chunks).1
          ++ (downloadLoopAux temp written buffer chunks).2.1
        = written ++ buffer ++ chunks.flatten ∧
      (downloadLoopAux temp written buffer chunks).1
        = written ++ writesTo temp (downloadLoopAux temp written buffer chunks).2.2 := by
  induction chunks with
  | nil =>
    intro written buffer
    refine ⟨by simp [downloadLoopAux], by simp [downloadLoopAux], by simp [downloadLoopAux, writesTo]⟩
  | cons chunk rest ih =>
    intro written buffer
    by_cases hbig : 256 * 1024 ≤ (buffer ++ chunk).length
    · have ih' := ih (written ++ (buffer ++ chunk)) []
      refine ⟨?_, ?_, ?_⟩
      · intro e he
        simp only [downloadLoopAux, hbig, if_pos] at he
        rcases List.mem_cons.mp he with h | h
        · exact ⟨buffer ++ chunk, h⟩
        · exact ih'.1 e h
      · simp only [downloadLoopAux, hbig, if_pos]
        rw [ih'.2.1]
        simp [List.append_assoc]
      · simp only [downloadLoopAux, hbig, if_pos]
        rw [writesTo_cons_write, ih'.2.2]
        simp [List.append_assoc]
    · have ih' := ih written (buffer ++ chunk)
      refine ⟨?_, ?_, ?_⟩
      · intro e he
        simp only [downloadLoopAux, hbig, if_neg, if_false] at he
        exact ih'.1 e he
      · simp only [downloadLoopAux, hbig, if_neg, if_false]
        rw [ih'.2.1]
        simp [List.append_assoc]
      · simp only [downloadLoopAux, hbig, if_neg, if_false]
        exact ih'.2.2

lemma chooseBakIndex_spec (occupied : Nat → Bool) :
    ∀ fuel i, 1 ≤ fuel →
      i ≤ chooseBakIndex occupied i fuel ∧
      chooseBakIndex occupied i fuel ≤ i + fuel - 1 ∧
      (occupied (chooseBakIndex occupied i fuel) = false
        ∨ chooseBakIndex occupied i fuel = i + fuel - 1) ∧
      (∀ j, i ≤ j → j < chooseBakIndex occupied i fuel → occupied j = true) := by
  intro fuel
  induction fuel with
  | zero => intro i h; exact absurd h (by omega)
  | succ fuel ih =>
    intro i _
    by_cases hocc : occupied i = true ∧ fuel ≠ 0
    · have hfuel : 1 ≤ fuel := Nat.one_le_iff_ne_zero.mpr hocc.2
      have hrec := ih (i + 1) hfuel
      have hdef : chooseBakIndex occupied i (fuel + 1) = chooseBakIndex occupied (i + 1) fuel := by
        simp [chooseBakIndex, hocc.1, hocc.2]
      refine ⟨by omega, by omega, ?_, ?_⟩
      · rcases hrec.2.2.1 with h | h
        · left; rw [hdef]; exact h
        · right; rw [hdef]; omega
      · intro j hij hjr
        rw [hdef] at hjr
        rcases Nat.eq_or_lt_of_le hij with rfl | hlt
        · exact hocc.1
        · exact hrec.2.2.2 j hlt hjr
    · have hdef : chooseBakIndex occupied i (fuel + 1) = i := by
        simp only [chooseBakIndex]
        rw [if_neg hocc]
      refine ⟨by omega, by omega, ?_, ?_⟩
      · by_cases ho : occupied i = true
        · right
          have hf0 : fuel = 0 := by
            by_contra hf
            exact hocc ⟨ho, hf⟩
          rw [hdef]; omega
        · left; rw [hdef]; simpa using ho
      · intro j hij hjr
        rw [hdef] at hjr
        omega

lemma temp_path_ne_save (p : String) : p ++ ".downloading" ≠ p := by
  intro h
  have hlen := congrArg String.length h
  rw [String.length_append] at hlen
  have h12 : (".downloading" : String).length = 12 := rfl
  omega

lemma writesTo_nil (temp : String) : writesTo temp [] = [] := by
  simp [writesTo]

lemma writesTo_append (temp : String) (l₁ l₂ : List DlEff) :
    writesTo temp (l₁ ++ l₂) = writesTo temp l₁ ++ writesTo temp l₂ := by
  simp [writesTo, List.filterMap_append]

lemma writesTo_cons_nonwrite (temp : String) (e : DlEff) (effs : List DlEff)
    (h : ∀ p b, e ≠ DlEff.writeFile p b) :
    writesTo temp (e :: effs) = writesTo temp effs := by
  cases e with
  | writeFile p b => exact absurd rfl (h p b)
  | createFile p => simp [writesTo]
  | syncFile p => simp [writesTo]
  | emitProgress a b c d f => simp [writesTo]
  | moveToOld a b => simp [writesTo]
  | renameFile a b => simp [writesTo]

lemma mem_download_file_success (e : DlEff) (actual_save_path : String) (session_id total : Nat)
    (chunks : List (List Nat)) (destExists : Bool) (occupied : String → Bool) :
    e ∈ download_file_success actual_save_path session_id total chunks destExists occupied ↔
      (e = DlEff.createFile (actual_save_path ++ ".downloading")
       ∨ e ∈ (downloadLoopAux (actual_save_path ++ ".downloading") [] [] chunks).2.2
       ∨ (¬(downloadLoopAux (actual_save_path ++ ".downloading") [] [] chunks).2.1 = [] ∧
           e = DlEff.writeFile (actual_save_path ++ ".downloading")
             (downloadLoopAux (actual_save_path ++ ".downloading") [] [] chunks).2.1)
       ∨ e = DlEff.syncFile (actual_save_path ++ ".downloading")
       ∨ e = DlEff.emitProgress session_id chunks.flatten.length
           (if 0 < total then total else chunks.flatten.length) 0 100
       ∨ (destExists = true ∧ e = DlEff.moveToOld actual_save_path
           (move_to_old_folder_destName occupied (fileNameOf actual_save_path)))
       ∨ e = DlEff.renameFile (actual_save_path ++ ".downloading") actual_save_path) := by
  by_cases hb : (downloadLoopAux (actual_save_path ++ ".downloading") [] [] chunks).2.1 = [] <;>
    by_cases hd : destExists = true <;>
      simp [download_file_success, hb, hd, List.mem_append, List.mem_cons, or_assoc]

/-- C5.  On a successful run, `download_file` writes body bytes only to the
staging path `<target>.downloading` (a path distinct from the destination),
the bytes written there are exactly the received body, it syncs the staging
file, emits a final 100% progress event, moves a pre-existing destination file
into the backup folder (plain name if free, else the first free of
`.bak001`…`.bak999`, else `.bak999` overwritten), and its last action is the
rename of the staging file onto the destination — so the destination path
never holds a partially written file. -/
theorem C5_download_success_staging_and_backup (actual_save_path : String)
    (session_id total : Nat) (chunks : List (List Nat)) (destExists : Bool)
    (occupied : String → Bool) :
    (actual_save_path ++ ".downloading" ≠ actual_save_path) ∧
    (download_file_success actual_save_path session_id total chunks destExists occupied).all
        (writeTargets (actual_save_path ++ ".downloading")) = true ∧
    writesTo (actual_save_path ++ ".downloading")
        (download_file_success actual_save_path session_id total chunks destExists occupied)
      = chunks.flatten ∧
    (download_file_success actual_save_path session_id total chunks destExists occupied).getLast?
      = some (DlEff.renameFile (actual_save_path ++ ".downloading") actual_save_path) ∧
    DlEff.syncFile (actual_save_path ++ ".downloading")
      ∈ download_file_success actual_save_path session_id total chunks destExists occupied ∧
    DlEff.emitProgress session_id chunks.flatten.length
        (if 0 < total then total else chunks.flatten.length) 0 100
      ∈ download_file_success actual_save_path session_id total chunks destExists occupied ∧
    (destExists = true →
      DlEff.moveToOld actual_save_path
          (move_to_old_folder_destName occupied (fileNameOf actual_save_path))
        ∈ download_file_success actual_save_path session_id total chunks destExists occupied) ∧
    (destExists = false →
      ∀ src name, DlEff.moveToOld src name
        ∉ download_file_success actual_save_path session_id total chunks destExists occupied) ∧
    (occupied (fileNameOf actual_save_path) = false →
      move_to_old_folder_destName occupied (fileNameOf actual_save_path)
        = fileNameOf actual_save_path) ∧
    (occupied (fileNameOf actual_save_path) = true →
      ∃ j, 1 ≤ j ∧ j ≤ 999 ∧
        move_to_old_folder_destName occupied (fileNameOf actual_save_path)
          = bakName (fileNameOf actual_save_path) j ∧
        (∀ k, 1 ≤ k → k < j → occupied (bakName (fileNameOf actual_save_path) k) = true) ∧
        (occupied (bakName (fileNameOf actual_save_path) j) = false ∨ j = 999)) := by
  have hloop := downloadLoopAux_spec (actual_save_path ++ ".downloading") chunks [] []
  have hc := hloop.2.1
  have hw := hloop.2.2
  simp only [List.nil_append] at hc hw
  refine ⟨temp_path_ne_save actual_save_path, ?_, ?_, ?_, ?_, ?_, ?_, ?_, ?_, ?_⟩
  · rw [List.all_eq_true]
    intro e he
    rw [mem_download_file_success] at he
    rcases he with rfl | h | ⟨_, rfl⟩ | rfl | rfl | ⟨_, rfl⟩ | rfl
    · simp [writeTargets]
    · obtain ⟨b, rfl⟩ := hloop.1 e h
      simp [writeTargets]
    all_goals simp [writeTargets]
  · simp only [download_file_success]
    rw [writesTo_append, writesTo_append, writesTo_append, writesTo_append, writesTo_append]
    have h0 : writesTo (actual_save_path ++ ".downloading")
        [DlEff.createFile (actual_save_path ++ ".downloading")] = [] := by
      simp [writesTo]
    have h1 : writesTo (actual_save_path ++ ".downloading")
        [DlEff.syncFile (actual_save_path ++ ".downloading"),
         DlEff.emitProgress session_id chunks.flatten.length
           (if 0 < total then total else chunks.flatten.length) 0 100] = [] := by
      simp [writesTo]
    have h2 : writesTo (actual_save_path ++ ".downloading")
        (if destExists = true then
          [DlEff.moveToOld actual_save_path
            (move_to_old_folder_destName occupied (fileNameOf actual_save_path))]
         else []) = [] := by
      by_cases hd : destExists = true <;> simp [hd, writesTo]
    have h3 : writesTo (actual_save_path ++ ".downloading")
        [DlEff.renameFile (actual_save_path ++ ".downloading") actual_save_path] = [] := by
      simp [writesTo]
    have h4 : writesTo (actual_save_path ++ ".downloading")
        (if (downloadLoopAux (actual_save_path ++ ".downloading") [] [] chunks).2.1 = [] then []
         else [DlEff.writeFile (actual_save_path ++ ".downloading")
           (downloadLoopAux (actual_save_path ++ ".downloading") [] [] chunks).2.1])
        = (downloadLoopAux (actual_save_path ++ ".downloading") [] [] chunks).2.1 := by
      by_cases hb : (downloadLoopAux (actual_save_path ++ ".downloading") [] [] chunks).2.1 = []
      · simp [hb, writesTo]
      · simp [hb, writesTo]
    rw [h0, h1, h2, h3, h4, List.append_nil, List.append_nil, List.append_nil,
      List.nil_append, ← hw]
    exact hc
  · simp only [download_file_success]
    rw [List.getLast?_concat]
  · rw [mem_download_file_success]
    exact Or.inr (Or.inr (Or.inr (Or.inl rfl)))
  · rw [mem_download_file_success]
    exact Or.inr (Or.inr (Or.inr (Or.inr (Or.inl rfl))))
  · intro hd
    rw [mem_download_file_success]
    exact Or.inr (Or.inr (Or.inr (Or.inr (Or.inr (Or.inl ⟨hd, rfl⟩)))))
  · intro hd src name hmem
    rw [mem_download_file_success] at hmem
    rcases hmem with h | h | ⟨_, h⟩ | h | h | ⟨hdt, h⟩ | h
    · exact absurd h (by simp)
    · obtain ⟨b, hb⟩ := hloop.1 _ h
      exact absurd hb (by simp)
    · exact absurd h (by simp)
    · exact absurd h (by simp)
    · exact absurd h (by simp)
    · rw [hd] at hdt; exact absurd hdt (by simp)
    · exact absurd h (by simp)
  · intro hfree
    simp [move_to_old_folder_destName, hfree]
  · intro hocc
    have hspec := chooseBakIndex_spec
      (fun i => occupied (bakName (fileNameOf actual_save_path) i)) 999 1 (by omega)
    refine ⟨chooseBakIndex (fun i => occupied (bakName (fileNameOf actual_save_path) i)) 1 999,
      hspec.1, by have := hspec.2.1; omega, ?_, ?_, ?_⟩
    · simp [move_to_old_folder_destName, hocc]
    · intro k h1k hkr
      exact hspec.2.2.2 k h1k hkr
    · rcases hspec.2.2.1 with h | h
      · left; simpa using h
      · right; omega

/-- Witness for C5: the backup conjuncts at a fully-occupied backup folder and
an existing destination file. -/
theorem C5_download_success_staging_and_backup_witness :
    DlEff.moveToOld "a.zip" (move_to_old_folder_destName (fun _ => true) (fileNameOf "a.zip"))
      ∈ download_file_success "a.zip" 1 0 [[7]] true (fun _ => true) ∧
    ∃ j, 1 ≤ j ∧ j ≤ 999 ∧
      move_to_old_folder_destName (fun _ => true) (fileNameOf "a.zip")
        = bakName (fileNameOf "a.zip") j ∧
      (∀ k, 1 ≤ k → k < j → (fun _ : String => true) (bakName (fileNameOf "a.zip") k) = true) ∧
      ((fun _ : String => true) (bakName (fileNameOf "a.zip") j) = false ∨ j = 999) :=
  ⟨(C5_download_success_staging_and_backup "a.zip" 1 0 [[7]] true
      (fun _ => true)).2.2.2.2.2.2.1 rfl,
   (C5_download_success_staging_and_backup "a.zip" 1 0 [[7]] true
      (fun _ => true)).2.2.2.2.2.2.2.2.2 rfl⟩

/- ============================================================================
   § Legacy InstanceRuntime and the maa_commands.rs commands
     (src/src-tauri/src/maa_commands.rs) -/

/-- `InstanceRuntime` (maa_commands.rs:155-163): the per-instance handle set of
the wired command module.  The child process is modelled by its pid. -/
structure InstanceRuntime where
  resource : Option Nat
  controller : Option Nat
  tasker : Option Nat
  agent_client : Option Nat
  agent_child : Option Nat
  task_ids : List Int
deriving DecidableEq, Repr

/-- `InstanceRuntime::default` (maa_commands.rs:170-181). -/
def InstanceRuntime.default : InstanceRuntime :=
  { resource := none, controller := none, tasker := none, agent_client := none,
    agent_child := none, task_ids := [] }

/-- The instance map `MaaState.instances` (maa_commands.rs:216), as a function
(`HashMap` lookup). -/
def Instances : Type := String → Option InstanceRuntime

/-- Point update of the instance map. -/
def updateInstances (m : Instances) (id : String) (v : Option InstanceRuntime) : Instances :=
  fun k => if k = id then v else m k

/-- Modelled from the spec: the sentinel invalid operation id `MAA_INVALID_ID`
of the missing `maa_ffi` module (§4.3: "A post that returns a sentinel invalid
id is a hard error for that single item"). -/
def MAA_INVALID_ID : Int := 0

/-- Rust `str::parse::<u64>`: optional leading `+`, at least one ASCII digit,
value below `2^64` (overflow is an error). -/
def parseU64 (s : String) : Option Nat :=
  let digits := if s.data.take 1 = ['+'] then s.data.drop 1 else s.data
  if digits = [] then none
  else if digits.all (fun c => c.isDigit) then
    let v := digits.foldl (fun acc c => acc * 10 + (c.toNat - 48)) 0
    if v < 2 ^ 64 then some v else none
  else none

/-- The engine-side outcomes that `maa_connect_controller` observes. -/
structure ConnectEnv where
  lib_initialized : Bool
  create_result : Option Nat
  post_connection_result : Int
deriving DecidableEq, Repr

/-- The controller-creation part of `maa_connect_controller`
(maa_commands.rs:575-662): parse the Adb numeric strings, reject `PlayCover`
on this (non-macOS) build, and fail on a null handle from the engine. -/
def createController (env : ConnectEnv) : ControllerConfig → Except String Nat
  | .Adb _ _ screencap_methods input_methods _ =>
    match parseU64 screencap_methods with
    | none => .error "Invalid screencap_methods"
    | some _ =>
      match parseU64 input_methods with
      | none => .error "Invalid input_methods"
      | some _ =>
        match env.create_result with
        | none => .error "Failed to create controller"
        | some h => .ok h
  | .Win32 _ _ _ _ =>
    match env.create_result with
    | none => .error "Failed to create controller"
    | some h => .ok h
  | .Gamepad _ _ _ =>
    match env.create_result with
    | none => .error "Failed to create controller"
    | some h => .ok h
  | .PlayCover _ => .error "PlayCover controller is only supported on macOS"

/-- Does the configuration have a malformed numeric field?  (Only the Adb
variant carries numbers-as-strings.) -/
def malformedNumericField : ControllerConfig → Bool
  | .Adb _ _ s i _ => (parseU64 s).isNone || (parseU64 i).isNone
  | _ => false

/-- Is the variant unsupported on this platform?  (The source has no macOS
branch: `PlayCover` always errors.) -/
def unsupportedPlatformVariant : ControllerConfig → Bool
  | .PlayCover _ => true
  | _ => false

/-- Outcome of `maa_connect_controller`: command result, updated instance map,
and the controller handles natively destroyed during the call. -/
structure ConnectOutcome where
  result : Except String Int
  instances : Instances
  destroyed : List Nat

/-- `maa_connect_controller` (maa_commands.rs:553-715): create the controller,
register the sink and the screenshot option, post the async connect; an
invalid posted id destroys the new controller and errors; otherwise any old
controller of the instance is destroyed and the new one stored, returning the
posted operation id. -/
def maa_connect_controller (env : ConnectEnv) (instances : Instances)
    (instance_id : String) (config : ControllerConfig) : ConnectOutcome :=
  if env.lib_initialized = false then
    ⟨.error "MaaFramework not initialized", instances, []⟩
  else
    match createController env config with
    | .error e => ⟨.error e, instances, []⟩
    | .ok controller =>
      let conn_id := env.post_connection_result
      if conn_id = MAA_INVALID_ID then
        ⟨.error "Failed to post connection", instances, [controller]⟩
      else
        match instances instance_id with
        | none => ⟨.error "Instance not found", instances, []⟩
        | some inst =>
          ⟨.ok conn_id,
           updateInstances instances instance_id (some { inst with controller := some controller }),
           match inst.controller with | some old => [old] | none => []⟩

/-- Is this command result an error? -/
def isErr : Except String Int → Bool
  | .error _ => true
  | .ok _ => false

lemma createController_ok_iff (env : ConnectEnv) (config : ControllerConfig) (h : Nat) :
    createController env config = Except.ok h ↔
      (env.create_result = some h ∧ malformedNumericField config = false ∧
        unsupportedPlatformVariant config = false) := by
  cases config with
  | Adb p a s i c =>
    cases hp : parseU64 s <;> cases hq : parseU64 i <;>
      cases hcr : env.create_result <;>
        simp [createController, malformedNumericField, unsupportedPlatformVariant, hp, hq, hcr]
  | Win32 a b c d =>
    cases hcr : env.create_result <;>
      simp [createController, malformedNumericField, unsupportedPlatformVariant, hcr]
  | Gamepad a b c =>
    cases hcr : env.create_result <;>
      simp [createController, malformedNumericField, unsupportedPlatformVariant, hcr]
  | PlayCover a =>
    simp [createController, malformedNumericField, unsupportedPlatformVariant]

lemma createController_error_iff (env : ConnectEnv) (config : ControllerConfig) :
    (∃ e, createController env config = Except.error e) ↔
      (malformedNumericField config = true ∨ unsupportedPlatformVariant config = true ∨
        env.create_result = none) := by
  cases config with
  | Adb p a s i c =>
    cases hp : parseU64 s <;> cases hq : parseU64 i <;>
      cases hcr : env.create_result <;>
        simp [createController, malformedNumericField, unsupportedPlatformVariant, hp, hq, hcr]
  | Win32 a b c d =>
    cases hcr : env.create_result <;>
      simp [createController, malformedNumericField, unsupportedPlatformVariant, hcr]
  | Gamepad a b c =>
    cases hcr : env.create_result <;>
      simp [createController, malformedNumericField, unsupportedPlatformVariant, hcr]
  | PlayCover a =>
    simp [createController, malformedNumericField, unsupportedPlatformVariant]

/-- C6 counterexample.  With the library initialized, a supported variant, no
numeric fields, and a non-null created handle, the call still errors when the
posted connect operation comes back with the sentinel invalid id — an error
case outside the claim's list. -/
theorem C6_connect_error_cases_counterexample :
    isErr (maa_connect_controller ⟨true, some 7, 0⟩ (fun _ => some InstanceRuntime.default) "i"
        (ControllerConfig.Win32 1 2 3 4)).result = true ∧
    malformedNumericField (ControllerConfig.Win32 1 2 3 4) = false ∧
    unsupportedPlatformVariant (ControllerConfig.Win32 1 2 3 4) = false ∧
    (⟨true, some 7, 0⟩ : ConnectEnv).create_result ≠ none ∧
    (⟨true, some 7, 0⟩ : ConnectEnv).lib_initialized = true :=
  ⟨rfl, rfl, rfl, by simp, rfl⟩

/-- C6 (amended).  `maa_connect_controller` returns an error exactly when the
library is uninitialized, a numeric config field is malformed, the platform
variant is unsupported, controller creation returns a null handle, the posted
connect operation id is the invalid sentinel, or the instance id is unknown;
every error leaves the instance map (hence any previously stored controller)
unchanged; and on success it returns the posted operation id, destroys exactly
the instance's previous controller (if any), and stores the new handle. -/
theorem C6_connect_controller_errors_amended (env : ConnectEnv) (instances : Instances)
    (instance_id : String) (config : ControllerConfig) :
    (isErr (maa_connect_controller env instances instance_id config).result = true ↔
      (env.lib_initialized = false ∨ malformedNumericField config = true ∨
        unsupportedPlatformVariant config = true ∨ env.create_result = none ∨
        env.post_connection_result = MAA_INVALID_ID ∨ instances instance_id = none)) ∧
    (isErr (maa_connect_controller env instances instance_id config).result = true →
      (maa_connect_controller env instances instance_id config).instances = instances) ∧
    (∀ inst h, instances instance_id = some inst → env.create_result = some h →
      env.lib_initialized = true → malformedNumericField config = false →
      unsupportedPlatformVariant config = false →
      env.post_connection_result ≠ MAA_INVALID_ID →
      (maa_connect_controller env instances instance_id config).result
          = Except.ok env.post_connection_result ∧
      (maa_connect_controller env instances instance_id config).instances instance_id
          = some { inst with controller := some h } ∧
      (maa_connect_controller env instances instance_id config).destroyed
          = (match inst.controller with | some old => [old] | none => [])) := by
  by_cases hlib : env.lib_initialized = false
  · refine ⟨?_, ?_, ?_⟩
    · simp [maa_connect_controller, hlib, isErr]
    · intro _; simp [maa_connect_controller, hlib]
    · intro inst h _ _ hlibT _ _ _
      rw [hlibT] at hlib; exact absurd hlib (by simp)
  · cases hcc : createController env config with
    | error e =>
      have hdisj := (createController_error_iff env config).mp ⟨e, hcc⟩
      refine ⟨?_, ?_, ?_⟩
      · simp only [maa_connect_controller, if_neg hlib, hcc, isErr, true_iff]
        tauto
      · intro _; simp only [maa_connect_controller, if_neg hlib, hcc]
      · intro inst h _ hcr _ hmal huns _
        have hok : createController env config = Except.ok h :=
          (createController_ok_iff env config h).mpr ⟨hcr, hmal, huns⟩
        rw [hcc] at hok; exact absurd hok (by simp)
    | ok hctrl =>
      obtain ⟨hcr, hmal, huns⟩ := (createController_ok_iff env config hctrl).mp hcc
      by_cases hpost : env.post_connection_result = MAA_INVALID_ID
      · refine ⟨?_, ?_, ?_⟩
        · simp only [maa_connect_controller, if_neg hlib, hcc, if_pos hpost, isErr, true_iff]
          tauto
        · intro _; simp only [maa_connect_controller, if_neg hlib, hcc, if_pos hpost]
        · intro inst h _ _ _ _ _ hp; exact absurd hpost hp
      · cases hins : instances instance_id with
        | none =>
          refine ⟨?_, ?_, ?_⟩
          · simp only [maa_connect_controller, if_neg hlib, hcc, if_neg hpost, hins, isErr,
              true_iff]
            tauto
          · intro _; simp only [maa_connect_controller, if_neg hlib, hcc, if_neg hpost, hins]
          · intro inst h hins2 _ _ _ _ _
            exact absurd hins2 (by simp)
        | some inst =>
          refine ⟨?_, ?_, ?_⟩
          · simp only [maa_connect_controller, if_neg hlib, hcc, if_neg hpost, hins, isErr]
            constructor
            · intro hfalse; exact absurd hfalse (by simp)
            · rintro (h | h | h | h | h | h)
              · exact absurd h hlib
              · rw [hmal] at h; exact absurd h (by simp)
              · rw [huns] at h; exact absurd h (by simp)
              · rw [hcr] at h; exact absurd h (by simp)
              · exact absurd h hpost
              · exact absurd h (by simp)
          · intro hisErr
            simp only [maa_connect_controller, if_neg hlib, hcc, if_neg hpost, hins,
              isErr] at hisErr
            exact absurd hisErr (by simp)
          · intro inst0 h0 hins0 hcr0 _ _ _ _
            have hinst := Option.some.inj hins0
            rw [hcr] at hcr0
            have hh := Option.some.inj hcr0
            subst hinst
            subst hh
            refine ⟨?_, ?_, ?_⟩ <;>
              simp [maa_connect_controller, if_neg hlib, hcc, if_neg hpost, hins, updateInstances]

/-- Witness for C6 (amended): the success conjunct at a concrete environment,
instance map and configuration. -/
theorem C6_connect_controller_errors_amended_witness :
    (maa_connect_controller ⟨true, some 7, 9⟩
        (fun _ => some { InstanceRuntime.default with controller := some 3 }) "i"
        (ControllerConfig.Win32 1 2 3 4)).result = Except.ok 9 ∧
    (maa_connect_controller ⟨true, some 7, 9⟩
        (fun _ => some { InstanceRuntime.default with controller := some 3 }) "i"
        (ControllerConfig.Win32 1 2 3 4)).instances "i"
      = some { InstanceRuntime.default with controller := some 7 } ∧
    (maa_connect_controller ⟨true, some 7, 9⟩
        (fun _ => some { InstanceRuntime.default with controller := some 3 }) "i"
        (ControllerConfig.Win32 1 2 3 4)).destroyed = [3] := by
  have happ := (C6_connect_controller_errors_amended ⟨true, some 7, 9⟩
    (fun _ => some { InstanceRuntime.default with controller := some 3 }) "i"
    (ControllerConfig.Win32 1 2 3 4)).2.2
    { InstanceRuntime.default with controller := some 3 } 7 rfl rfl rfl rfl rfl (by decide)
  exact ⟨happ.1, happ.2.1, happ.2.2⟩

/- ============================================================================
   § maa_start_tasks, agent branch (src/src-tauri/src/maa_commands.rs, 1196-1430) -/

/-- Engine/OS outcomes observed by the agent branch of `maa_start_tasks`. -/
structure AgentEnv where
  create_result : Option Nat
  buffer_create_ok : Bool
  identifier_ok : Bool
  spawn_result : Option Nat
  connect_ok : Bool
deriving DecidableEq, Repr

/-- The agent branch of `maa_start_tasks` (maa_commands.rs:1196-1430): create
the agent client, fetch its socket identifier, spawn the child process, then
connect.  Returns (command result, updated instance map, destroyed agent
clients).  A failed connect stores the child on the instance, destroys the
client, and errors; only a successful connect stores both. -/
def maa_start_tasks_agent (env : AgentEnv) (instances : Instances) (instance_id : String) :
    Except String Unit × Instances × List Nat :=
  match env.create_result with
  | none => (.error "Failed to create agent client", instances, [])
  | some agent_client =>
    if env.buffer_create_ok = false then
      (.error "Failed to create string buffer", instances, [agent_client])
    else if env.identifier_ok = false then
      (.error "Failed to get agent identifier", instances, [agent_client])
    else
      match env.spawn_result with
      | none => (.error "Failed to start agent process", instances, [])
      | some child =>
        if env.connect_ok = false then
          (.error "Failed to connect to agent",
           updateInstances instances instance_id
             ((instances instance_id).map (fun inst => { inst with agent_child := some child })),
           [agent_client])
        else
          (.ok (),
           updateInstances instances instance_id
             ((instances instance_id).map (fun inst =>
               { inst with agent_client := some agent_client, agent_child := some child })),
           [])

/-- C7.  In the agent branch of `maa_start_tasks`, for an instance that holds no
agent client yet: the agent client ends up stored only when the connect
succeeded (with the whole chain before it); a failed connect returns the
connect error, destroys the new client, retains the spawned child on the
instance, and leaves the client slot unchanged; and a successful connect
stores both the client and the child. -/
theorem C7_start_tasks_agent_connect (env : AgentEnv) (instances : Instances)
    (instance_id : String) (inst : InstanceRuntime)
    (hins : instances instance_id = some inst) (hnone : inst.agent_client = none) :
    (∀ rt, (maa_start_tasks_agent env instances instance_id).2.1 instance_id = some rt →
      rt.agent_client.isSome = true →
      env.create_result.isSome = true ∧ env.buffer_create_ok = true ∧
        env.identifier_ok = true ∧ env.spawn_result.isSome = true ∧ env.connect_ok = true) ∧
    (∀ client child, env.create_result = some client → env.buffer_create_ok = true →
      env.identifier_ok = true → env.spawn_result = some child → env.connect_ok = false →
      (maa_start_tasks_agent env instances instance_id).1 = .error "Failed to connect to agent" ∧
      (maa_start_tasks_agent env instances instance_id).2.2 = [client] ∧
      (maa_start_tasks_agent env instances instance_id).2.1 instance_id
          = some { inst with agent_child := some child }) ∧
    (∀ client child, env.create_result = some client → env.buffer_create_ok = true →
      env.identifier_ok = true → env.spawn_result = some child → env.connect_ok = true →
      (maa_start_tasks_agent env instances instance_id).1 = .ok () ∧
      (maa_start_tasks_agent env instances instance_id).2.1 instance_id
          = some { inst with agent_client := some client, agent_child := some child }) := by
  refine ⟨?_, ?_, ?_⟩
  · intro rt hrt hsome
    cases hcr : env.create_result with
    | none =>
      simp [maa_start_tasks_agent, hcr, hins] at hrt
      rw [← hrt, hnone] at hsome
      simp at hsome
    | some client =>
      by_cases hbuf : env.buffer_create_ok = false
      · simp [maa_start_tasks_agent, hcr, hbuf, hins] at hrt
        rw [← hrt, hnone] at hsome
        simp at hsome
      · by_cases hid : env.identifier_ok = false
        · simp [maa_start_tasks_agent, hcr, hbuf, hid, hins] at hrt
          rw [← hrt, hnone] at hsome
          simp at hsome
        · cases hsp : env.spawn_result with
          | none =>
            simp [maa_start_tasks_agent, hcr, hbuf, hid, hsp, hins] at hrt
            rw [← hrt, hnone] at hsome
            simp at hsome
          | some child =>
            by_cases hconn : env.connect_ok = false
            · simp [maa_start_tasks_agent, hcr, hbuf, hid, hsp, hconn, hins,
                updateInstances] at hrt
              rw [← hrt, hnone] at hsome
              simp at hsome
            · refine ⟨by simp, by simpa using hbuf, by simpa using hid, by simp,
                by simpa using hconn⟩
  · intro client child hcr hbuf hid hsp hconn
    refine ⟨?_, ?_, ?_⟩ <;>
      simp [maa_start_tasks_agent, hcr, hbuf, hid, hsp, hconn, hins, updateInstances]
  · intro client child hcr hbuf hid hsp hconn
    refine ⟨?_, ?_⟩ <;>
      simp [maa_start_tasks_agent, hcr, hbuf, hid, hsp, hconn, hins, updateInstances]

/-- Witness for C7: a concrete failed connect retains the child, destroys the
client, and errors. -/
theorem C7_start_tasks_agent_connect_witness :
    (maa_start_tasks_agent ⟨some 11, true, true, some 22, false⟩
        (fun _ => some InstanceRuntime.default) "i").1 = .error "Failed to connect to agent" ∧
    (maa_start_tasks_agent ⟨some 11, true, true, some 22, false⟩
        (fun _ => some InstanceRuntime.default) "i").2.2 = [11] ∧
    (maa_start_tasks_agent ⟨some 11, true, true, some 22, false⟩
        (fun _ => some InstanceRuntime.default) "i").2.1 "i"
      = some { InstanceRuntime.default with agent_child := some 22 } :=
  (C7_start_tasks_agent_connect ⟨some 11, true, true, some 22, false⟩
    (fun _ => some InstanceRuntime.default) "i" InstanceRuntime.default rfl rfl).2.1
    11 22 rfl rfl rfl rfl rfl

/- ============================================================================
   § Instance teardown (maa_commands.rs:183-210, 533-548;
     commands/types.rs:400-429) -/

/-- One native teardown step performed while dropping an instance runtime. -/
inductive TeardownEff where
  | agentDisconnect (h : Nat)
  | agentDestroy (h : Nat)
  | childKill
  | taskerDestroy (h : Nat)
  | controllerDestroy (h : Nat)
  | controllerRefCleared
  | resourceDestroy (h : Nat)
deriving DecidableEq, Repr

/-- `Drop for InstanceRuntime` (maa_commands.rs:183-210), the wired legacy
runtime: disconnect+destroy the agent client, kill the child, destroy the
tasker, destroy the controller, destroy the resource — in that order. -/
def InstanceRuntime.dropEffects (rt : InstanceRuntime) : List TeardownEff :=
  (match rt.agent_client with
   | some a => [TeardownEff.agentDisconnect a, TeardownEff.agentDestroy a]
   | none => [])
  ++ (match rt.agent_child with | some _ => [TeardownEff.childKill] | none => [])
  ++ (match rt.tasker with | some t => [TeardownEff.taskerDestroy t] | none => [])
  ++ (match rt.controller with | some c => [TeardownEff.controllerDestroy c] | none => [])
  ++ (match rt.resource with | some r => [TeardownEff.resourceDestroy r] | none => [])

/-- The pooled `InstanceRuntime` (commands/types.rs:368-379). -/
structure PooledInstanceRuntime where
  resource : Option Nat
  controller : Option Nat
  controller_pool_key : Option String
  tasker : Option Nat
  agent_client : Option Nat
  agent_child : Option Nat
  task_ids : List Int
deriving DecidableEq, Repr

/-- `Drop for InstanceRuntime` (commands/types.rs:400-429), the pooled runtime:
disconnect+destroy the agent client, kill the child, destroy the tasker, clear
the controller reference and pool key WITHOUT destroying the controller (the
pool release is the caller's responsibility, types.rs:402-403), destroy the
resource. -/
def PooledInstanceRuntime.dropEffects (rt : PooledInstanceRuntime) : List TeardownEff :=
  (match rt.agent_client with
   | some a => [TeardownEff.agentDisconnect a, TeardownEff.agentDestroy a]
   | none => [])
  ++ (match rt.agent_child with | some _ => [TeardownEff.childKill] | none => [])
  ++ (match rt.tasker with | some t => [TeardownEff.taskerDestroy t] | none => [])
  ++ [TeardownEff.controllerRefCleared]
  ++ (match rt.resource with | some r => [TeardownEff.resourceDestroy r] | none => [])

/-- `maa_destroy_instance` (maa_commands.rs:533-548): remove the entry (if any)
from the instance map and return success either way; dropping the removed
runtime performs its native teardown (only when the library is loaded,
maa_commands.rs:185-186). -/
def maa_destroy_instance (lib_initialized : Bool) (instances : Instances)
    (instance_id : String) : Except String Unit × Instances × List TeardownEff :=
  match instances instance_id with
  | none => (.ok (), instances, [])
  | some rt =>
    (.ok (), updateInstances instances instance_id none,
     if lib_initialized then rt.dropEffects else [])

/-- C8.  `maa_destroy_instance` is idempotent: destroying an unknown id returns
success with no state change and no teardown; destroying a known id succeeds,
performs the runtime's teardown exactly once, and a second destroy of the same
id is a successful no-op with no further teardown. -/
theorem C8_destroy_instance_idempotent (lib_initialized : Bool) (instances : Instances)
    (instance_id : String) :
    (instances instance_id = none →
      maa_destroy_instance lib_initialized instances instance_id = (.ok (), instances, [])) ∧
    (∀ rt, instances instance_id = some rt →
      (maa_destroy_instance lib_initialized instances instance_id).1 = .ok () ∧
      (maa_destroy_instance lib_initialized instances instance_id).2.2
          = (if lib_initialized then rt.dropEffects else []) ∧
      (maa_destroy_instance lib_initialized
          (maa_destroy_instance lib_initialized instances instance_id).2.1 instance_id)
        = (.ok (), (maa_destroy_instance lib_initialized instances instance_id).2.1, [])) := by
  constructor
  · intro hnone
    simp [maa_destroy_instance, hnone]
  · intro rt hsome
    have hfirst : (maa_destroy_instance lib_initialized instances instance_id).2.1
        = updateInstances instances instance_id none := by
      simp [maa_destroy_instance, hsome]
    have hgone : updateInstances instances instance_id none instance_id = none := by
      simp [updateInstances]
    refine ⟨by simp [maa_destroy_instance, hsome], by simp [maa_destroy_instance, hsome], ?_⟩
    rw [hfirst]
    simp [maa_destroy_instance, hgone]

/-- Witness for C8: a concrete double destroy of a known id tears down once and
is a no-op the second time, and destroying an unknown id changes nothing. -/
theorem C8_destroy_instance_idempotent_witness :
    ((fun k => if k = "a" then some { InstanceRuntime.default with controller := some 3 }
               else none) : Instances) "b" = none ∧
    maa_destroy_instance true
        (fun k => if k = "a" then some { InstanceRuntime.default with controller := some 3 }
                  else none) "b"
      = (.ok (), (fun k => if k = "a" then
          some { InstanceRuntime.default with controller := some 3 } else none), []) ∧
    (maa_destroy_instance true
        (fun k => if k = "a" then some { InstanceRuntime.default with controller := some 3 }
                  else none) "a").2.2 = [TeardownEff.controllerDestroy 3] ∧
    (maa_destroy_instance true
        (maa_destroy_instance true
          (fun k => if k = "a" then some { InstanceRuntime.default with controller := some 3 }
                    else none) "a").2.1 "a").2.2 = [] := by
  have h := C8_destroy_instance_idempotent true
    (fun k => if k = "a" then some { InstanceRuntime.default with controller := some 3 }
              else none) "b"
  have h2 := C8_destroy_instance_idempotent true
    (fun k => if k = "a" then some { InstanceRuntime.default with controller := some 3 }
              else none) "a"
  have h3 := h2.2 { InstanceRuntime.default with controller := some 3 } rfl
  refine ⟨rfl, h.1 rfl, ?_, ?_⟩
  · rw [h3.2.1]
    rfl
  · rw [h3.2.2]

/-- C9 counterexample.  In the wired runtime (maa_commands.rs:200-202) the drop
cascade DESTROYS the controller rather than releasing the reference: for a
fully populated runtime the teardown list contains a native controller
destroy. -/
theorem C9_drop_cascade_counterexample :
    TeardownEff.controllerDestroy 3
      ∈ InstanceRuntime.dropEffects
          { resource := some 4, controller := some 3, tasker := some 2,
            agent_client := some 1, agent_child := some 9, task_ids := [] } ∧
    InstanceRuntime.dropEffects
        { resource := some 4, controller := some 3, tasker := some 2,
          agent_client := some 1, agent_child := some 9, task_ids := [] }
      = [TeardownEff.agentDisconnect 1, TeardownEff.agentDestroy 1, TeardownEff.childKill,
         TeardownEff.taskerDestroy 2, TeardownEff.controllerDestroy 3,
         TeardownEff.resourceDestroy 4] := by
  refine ⟨by decide, by decide⟩

/-- C9 (amended).  The drop cascade order is: disconnect+destroy AgentClient,
kill the child process, destroy the Tasker, then the controller step, then
destroy the Resource.  In the pooled runtime (commands/types.rs:400-429) the
controller step only clears the reference (release is the caller's duty,
no destroy); in the wired legacy runtime (maa_commands.rs:183-210) the
controller step is a native destroy. -/
theorem C9_drop_cascade_order (a c t r ch : Nat) (key : Option String) (ids : List Int) :
    PooledInstanceRuntime.dropEffects
        { resource := some r, controller := some c, controller_pool_key := key,
          tasker := some t, agent_client := some a, agent_child := some ch, task_ids := ids }
      = [TeardownEff.agentDisconnect a, TeardownEff.agentDestroy a, TeardownEff.childKill,
         TeardownEff.taskerDestroy t, TeardownEff.controllerRefCleared,
         TeardownEff.resourceDestroy r] ∧
    (∀ eff, eff ∈ PooledInstanceRuntime.dropEffects
        { resource := some r, controller := some c, controller_pool_key := key,
          tasker := some t, agent_client := some a, agent_child := some ch, task_ids := ids } →
      ∀ x, eff ≠ TeardownEff.controllerDestroy x) ∧
    InstanceRuntime.dropEffects
        { resource := some r, controller := some c, tasker := some t,
          agent_client := some a, agent_child := some ch, task_ids := ids }
      = [TeardownEff.agentDisconnect a, TeardownEff.agentDestroy a, TeardownEff.childKill,
         TeardownEff.taskerDestroy t, TeardownEff.controllerDestroy c,
         TeardownEff.resourceDestroy r] := by
  refine ⟨rfl, ?_, rfl⟩
  intro eff heff x
  simp [PooledInstanceRuntime.dropEffects] at heff
  rcases heff with rfl | rfl | rfl | rfl | rfl | rfl <;> simp

/- ============================================================================
   § maa_stop_task (src/src-tauri/src/maa_commands.rs, lines 972-991) -/

/-- `maa_stop_task` (maa_commands.rs:972-991): require the library, look up the
instance, CLEAR its recorded task-id list, then require the tasker; with a
tasker it posts the fire-and-forget stop. -/
def maa_stop_task (lib_initialized : Bool) (instances : Instances) (instance_id : String) :
    Except String Unit × Instances :=
  if lib_initialized = false then (.error "MaaFramework not initialized", instances)
  else
    match instances instance_id with
    | none => (.error "Instance not found", instances)
    | some inst =>
      let instances1 := updateInstances instances instance_id
        (some { inst with task_ids := [] })
      match inst.tasker with
      | none => (.error "Tasker not created", instances1)
      | some _ => (.ok (), instances1)

/-- C10.  For an existing instance whose tasker was never created,
`maa_stop_task` returns the error "Tasker not created", but the instance's
recorded task-id list has already been cleared — the state is mutated even
though the call reports an error. -/
theorem C10_stop_task_clears_ids_before_tasker_check (instances : Instances)
    (instance_id : String) (inst : InstanceRuntime)
    (hins : instances instance_id = some inst) (htask : inst.tasker = none) :
    (maa_stop_task true instances instance_id).1 = .error "Tasker not created" ∧
    (maa_stop_task true instances instance_id).2 instance_id
      = some { inst with task_ids := [] } := by
  constructor
  · simp [maa_stop_task, hins, htask]
  · simp [maa_stop_task, hins, htask, updateInstances]

/-- Witness for C10: a concrete instance with recorded task ids and no tasker
is mutated (ids cleared) while the call errors. -/
theorem C10_stop_task_clears_ids_before_tasker_check_witness :
    (maa_stop_task true (fun _ => some { InstanceRuntime.default with task_ids := [5, 6] })
        "i").1 = .error "Tasker not created" ∧
    (maa_stop_task true (fun _ => some { InstanceRuntime.default with task_ids := [5, 6] })
        "i").2 "i"
      = some { InstanceRuntime.default with task_ids := ([] : List Int) } ∧
    some { InstanceRuntime.default with task_ids := ([] : List Int) }
      ≠ some { InstanceRuntime.default with task_ids := [5, 6] } := by
  have h := C10_stop_task_clears_ids_before_tasker_check
    (fun _ => some { InstanceRuntime.default with task_ids := [5, 6] }) "i"
    { InstanceRuntime.default with task_ids := [5, 6] } rfl rfl
  exact ⟨h.1, h.2, by decide⟩

/-- Witness for C9 (amended): a concrete effect of the pooled cascade is not a
controller destroy. -/
theorem C9_drop_cascade_order_witness :
    TeardownEff.childKill ∈ PooledInstanceRuntime.dropEffects
        { resource := some 4, controller := some 3, controller_pool_key := none,
          tasker := some 2, agent_client := some 1, agent_child := some 9, task_ids := [] } ∧
    TeardownEff.childKill ≠ TeardownEff.controllerDestroy 7 :=
  ⟨by decide, (C9_drop_cascade_order 1 3 2 4 9 none []).2.1 TeardownEff.childKill (by decide) 7⟩
